import Mathlib

/-!
Verification of the type-test terminal typing program.

Shallow embedding of src/main.py, src/type_test/program/Program.py and
src/type_test/quotes/Quotes.py.  Python strings are modelled as List Char,
Python ints as Int or Nat, and the float statistics are modelled over the
rationals.  The curses screen handle and the threading lock are not data;
the body render pass is modelled as the per-position list of colors it
writes, flattened in reading order (screen wrapping only moves the cursor
coordinates, never the position-to-color assignment).
-/

namespace TypeTest

/-- The styles a phrase position can carry after the body render pass:
the default styling of the initial full-phrase addstr, the green pair for
correct positions, and the inverse error pair (class Colors, Program.py). -/
inductive CColor
  | dflt
  | green
  | error
  deriving DecidableEq, Repr

/-- The lockstep walk of Program.render (lines 95-111): for every position
of zip(typed, selected_quote) the sticky errored flag is or-ed with the
mismatch at the position, and the phrase character is drawn green unless
the flag is set, in which case it is drawn with the error color. -/
def render_walk : List Char → List Char → Bool → List CColor
  | t :: ts, p :: ps, errored =>
      (if errored || !(t == p) then CColor.error else CColor.green)
        :: render_walk ts ps (errored || !(t == p))
  | _, _, _ => []

/-- Overwriting the leading positions of the full-phrase write with the
colors produced by the walk: the loop redraws exactly the zipped span. -/
def overlay : List CColor → List CColor → List CColor
  | base, [] => base
  | [], _ :: _ => []
  | _ :: base, w :: ws => w :: overlay base ws

/-- Program.render body pass, flattened to one color per phrase position:
line 94 writes the whole phrase with default styling, then the walk
recolors the zipped positions. -/
def render_body (typed phrase : List Char) : List CColor :=
  overlay (List.replicate phrase.length CColor.dflt) (render_walk typed phrase false)

theorem render_walk_length (t p : List Char) (e : Bool) :
    (render_walk t p e).length = min t.length p.length := by
  induction t generalizing p e with
  | nil => cases p <;> simp [render_walk]
  | cons a ts ih =>
      cases p with
      | nil => simp [render_walk]
      | cons b ps => simp [render_walk, ih, Nat.succ_min_succ]

theorem render_walk_get (t p : List Char) (e : Bool) (i : ℕ) :
    (render_walk t p e)[i]? =
      if i < min t.length p.length then
        some (if e = false ∧ t.take (i + 1) = p.take (i + 1)
              then CColor.green else CColor.error)
      else none := by
  induction t generalizing p e i with
  | nil => cases p <;> simp [render_walk]
  | cons a ts ih =>
      cases p with
      | nil => simp [render_walk]
      | cons b ps =>
          cases i with
          | zero =>
              by_cases hab : a = b <;> cases e <;>
                simp [render_walk, hab, Nat.succ_min_succ]
          | succ i =>
              by_cases hab : a = b <;> cases e <;>
                simp [render_walk, hab, ih, Nat.succ_min_succ,
                  Nat.succ_lt_succ_iff, List.take_succ_cons]

theorem overlay_get (base w : List CColor) (i : ℕ) :
    (overlay base w)[i]? =
      if i < w.length ∧ i < base.length then w[i]? else base[i]? := by
  induction base generalizing w i with
  | nil => cases w <;> simp [overlay]
  | cons b bs ih =>
      cases w with
      | nil => simp [overlay]
      | cons x ws =>
          cases i with
          | zero => simp [overlay]
          | succ i => simp [overlay, ih, Nat.succ_lt_succ_iff]

theorem replicate_get (n : ℕ) (a : CColor) (i : ℕ) :
    (List.replicate n a)[i]? = if i < n then some a else none := by
  induction n generalizing i with
  | zero => simp
  | succ n ih =>
      cases i with
      | zero => simp [List.replicate]
      | succ i => simp [List.replicate, ih, Nat.succ_lt_succ_iff]

/-- Claim C1: the body render colors exactly the positions of the zipped
span (up to the shorter of typed and phrase); such a position is green
(correct) precisely when every position up to and including it matches
(prefixes of length i+1 agree), and error otherwise - so from the first
mismatch on, every rendered position is error-colored even if it matches;
positions beyond the typed length keep the default styling of the initial
full-phrase write, and nothing is rendered beyond the phrase length. -/
theorem render_body_color_characterization (typed phrase : List Char) (i : ℕ) :
    (render_body typed phrase)[i]? =
      if i < phrase.length then
        some (if i < typed.length then
                (if typed.take (i + 1) = phrase.take (i + 1)
                 then CColor.green else CColor.error)
              else CColor.dflt)
      else none := by
  rw [render_body, overlay_get, render_walk_get, render_walk_length,
    replicate_get]
  simp only [List.length_replicate, lt_min_iff]
  by_cases h1 : i < typed.length <;> by_cases h2 : i < phrase.length <;>
    simp [h1, h2]

/-- The whitespace class of the re module over the ASCII range the program
can store: space, tab, newline, carriage return, vertical tab, form feed. -/
def pySpace (c : Char) : Bool :=
  c == ' ' || c == '\t' || c == '\n' || c == '\r' || c == '\x0b' || c == '\x0c'

/-- re.split over runs of whitespace (update_stats, Program.py line 143):
walk the string collecting the current segment; a whitespace character
closes the segment, and inRun makes a run of several whitespace characters
produce a single split, so segments sit between maximal whitespace runs
(with empty segments at a leading or trailing run, and one empty segment
for the empty string). -/
def splitWSAux : List Char → List Char → Bool → List (List Char)
  | [], cur, _ => [cur.reverse]
  | c :: cs, cur, inRun =>
      if pySpace c then
        if inRun then splitWSAux cs [] true
        else cur.reverse :: splitWSAux cs [] true
      else splitWSAux cs (c :: cur) false

def split_ws (s : List Char) : List (List Char) :=
  splitWSAux s [] false

/-- The word count stored by update_stats: the number of pieces re.split
returns on the typed buffer. -/
def word_count (typed : List Char) : ℕ :=
  (split_ws typed).length

/-- One quote record (class Quote, Quotes.py lines 7-13): author, title,
text and, when a fourth argument is given, an id. -/
structure Quote where
  author : List Char
  title : List Char
  text : List Char
  quote_id : Option Int
  deriving DecidableEq, Repr

/-- The fixed record Quote("Author", "Title", "Text", 1) that Quotes.random
builds when the TYPE_TEST_DEBUG environment variable is set. -/
def debug_quote : Quote :=
  { author := "Author".data, title := "Title".data,
    text := "Text".data, quote_id := some 1 }

namespace Quotes

/-- Quotes.random (Quotes.py lines 42-47): with the debug toggle set it
returns the fixed debug quote; otherwise it draws the quote stored at a
random index (random.choice over the indices list followed by the dict
lookup, modelled as selecting position choice of the corpus list; callers
always draw from a corpus in range, so the out-of-range default is never
exercised in the theorems below). -/
def random (debug : Bool) (corpus : List Quote) (choice : ℕ) : Quote :=
  if debug then debug_quote else corpus.getD choice debug_quote

end Quotes

/-- A Python value as stored in Program.selected_quote: None right after
construction, and afterwards whatever Quotes.random returned, which is a
Quote object; Program.check_win compares this value to the typed str. -/
inductive PyVal
  | pynone
  | str (s : List Char)
  | quoteObj (q : Quote)
  deriving DecidableEq, Repr

/-- Python equality as evaluated by check_win (selected_quote == typed):
two str values compare by content, None equals None, and since class Quote
defines no custom equality a Quote object compares by identity, so it never
equals a str or None, and check_win only ever compares the stored value
with the freshly read typed str (never the same object). -/
def pyEq : PyVal → PyVal → Bool
  | PyVal.str a, PyVal.str b => a == b
  | PyVal.pynone, PyVal.pynone => true
  | _, _ => false

/-- Modelled from the spec: the Timer component (type_test/timer, not under
src) owns a background thread; start begins counting elapsed hundredths of
a second from its own fresh monotonic start timestamp, get_time returns the
current count, and join signals the thread and blocks until it exits.  The
thread is modelled as an alive flag plus the tick count the program reads. -/
structure TimerM where
  alive : Bool
  elapsed : ℕ
  deriving DecidableEq, Repr

/-- The mutable fields of class Program (Program.py lines 38-51).  The
curses screen handle and the threading lock are not data; size is the
getmaxyx pair (rows, cols); stats caches (word count, char count); time
caches (seconds, hundredths) as last written by the timer callback. -/
structure ProgramState where
  running : Bool
  typed : List Char
  selected_quote : PyVal
  cur_pos : ℕ × ℕ
  size : ℕ × ℕ
  timer : Option TimerM
  stats : ℕ × ℕ
  time : ℕ × ℕ
  deriving DecidableEq, Repr

/-- Program.__init__ for a screen of the given size (TEXT_POS is (2, 0)). -/
def init_program (size : ℕ × ℕ) : ProgramState :=
  { running := false, typed := [], selected_quote := PyVal.pynone,
    cur_pos := (2, 0), size := size, timer := none,
    stats := (0, 0), time := (0, 0) }

/-- Program.update_stats (lines 142-144): store the re.split word count and
the character count of the typed buffer. -/
def update_stats (s : ProgramState) : ProgramState :=
  { s with stats := (word_count s.typed, s.typed.length) }

/-- Program.get_stats (lines 131-135): with secs the seconds part of the
cached time, return (stats0 / secs * 60, stats1 / secs) when secs > 0 and
(0, 0) otherwise; the Python float division is modelled over the
rationals. -/
def get_stats (s : ProgramState) : ℚ × ℚ :=
  if 0 < s.time.1 then
    ((s.stats.1 : ℚ) / (s.time.1 : ℚ) * 60, (s.stats.2 : ℚ) / (s.time.1 : ℚ))
  else (0, 0)

/-- curses.KEY_BACKSPACE, octal 0407. -/
def KEY_BACKSPACE : Int := 263

/-- curses.KEY_RESIZE, octal 0632. -/
def KEY_RESIZE : Int := 410

/-- Program.read_input (lines 118-128): one getch code is dispatched -
backspace drops the last typed character (typed[:-1]), resize refreshes the
stored screen size from getmaxyx (passed here as scr), a code in the
printable range 32..126 appends chr(c), anything else is ignored - and
update_stats runs afterwards in every case. -/
def read_input (c : Int) (scr : ℕ × ℕ) (s : ProgramState) : ProgramState :=
  update_stats
    (if c = KEY_BACKSPACE then { s with typed := s.typed.dropLast }
     else if c = KEY_RESIZE then { s with size := scr }
     else if 32 ≤ c ∧ c ≤ 126 then { s with typed := s.typed ++ [Char.ofNat c.toNat] }
     else s)

/-- Program.stop_timer (lines 171-173): when a timer exists, join it (its
thread stops); a missing timer is a no-op. -/
def stop_timer (s : ProgramState) : ProgramState :=
  match s.timer with
  | some t => { s with timer := some { t with alive := false } }
  | none => s

/-- Program.start_timer (lines 175-179): join any previous timer, then
construct and start a fresh Timer, whose elapsed count begins at zero from
its own start timestamp (Timer internals modelled from the spec). -/
def start_timer (s : ProgramState) : ProgramState :=
  { s with timer := some { alive := true, elapsed := 0 } }

/-- Program.check_win (lines 146-149): when selected_quote == typed, stop
the timer; nothing else is touched. -/
def check_win (s : ProgramState) : ProgramState :=
  if pyEq s.selected_quote (PyVal.str s.typed) then stop_timer s else s

/-- Program.restart (lines 53-57): set running, clear the typed buffer,
draw a new quote and start a fresh timer. -/
def restart (debug : Bool) (corpus : List Quote) (choice : ℕ)
    (s : ProgramState) : ProgramState :=
  start_timer
    { s with running := true, typed := [],
             selected_quote := PyVal.quoteObj (Quotes.random debug corpus choice) }

/-- Program.stop (lines 182-184): clear the loop flag and stop the timer. -/
def stop (s : ProgramState) : ProgramState :=
  stop_timer { s with running := false }

/-- Program.update_size (lines 151-152): refresh the stored getmaxyx pair. -/
def update_size (scr : ℕ × ℕ) (s : ProgramState) : ProgramState :=
  { s with size := scr }

/-- Program.__timer_callback (lines 156-168): when a timer exists, read its
elapsed hundredths and cache (elapsed // 100, elapsed - seconds * 100);
without a timer the previous value is deliberately kept.  The header render
and refresh that follow write to the screen only. -/
def timer_callback (s : ProgramState) : ProgramState :=
  match s.timer with
  | some t => { s with time := (t.elapsed / 100, t.elapsed % 100) }
  | none => s

/-- Modelled from the spec: the corpus archive type_test/data/examples.json.gz
is not under src; the spec has the corpus supply candidate phrases (target
text bodies the user reproduces), so its quotes are modelled as carrying
non-empty text. -/
def corpusWF (corpus : List Quote) : Prop :=
  ∀ q ∈ corpus, q.text ≠ []

/-- Claim C3: after update_stats runs on a typed buffer with a cached time
of secs seconds, the reported statistics are wpm = word count / secs * 60
and cps = char count / secs when secs > 0, and (0, 0) when secs = 0 (no
division happens then); the word count is the one the code computes,
len(re.split(whitespace, typed)). -/
theorem stats_formula (typed : List Char) (secs millis : ℕ) (s : ProgramState) :
    get_stats (update_stats { s with typed := typed, time := (secs, millis) }) =
      if 0 < secs then
        ((word_count typed : ℚ) / (secs : ℚ) * 60, (typed.length : ℚ) / (secs : ℚ))
      else (0, 0) := by
  simp [get_stats, update_stats]

/-- Claim C9: on the empty typed buffer re.split yields a single empty
segment, so the stored word count is 1 and for secs > 0 the reported
statistics are wpm = 60 / secs and cps = 0 rather than both being 0. -/
theorem empty_typed_stats (secs millis : ℕ) (s : ProgramState) (h : 0 < secs) :
    word_count [] = 1 ∧
    get_stats (update_stats { s with typed := [], time := (secs, millis) }) =
      (60 / (secs : ℚ), 0) := by
  have hs : ((secs : ℚ)) ≠ 0 := by
    exact_mod_cast Nat.pos_iff_ne_zero.mp h
  refine ⟨rfl, ?_⟩
  simp [get_stats, update_stats, h, word_count, split_ws, splitWSAux]
  field_simp

theorem empty_typed_stats_witness :
    0 < 30 ∧
    (word_count [] = 1 ∧
      get_stats (update_stats
        { init_program (24, 80) with typed := [], time := (30, 0) }) =
        (60 / ((30 : ℕ) : ℚ), 0)) :=
  ⟨by decide, empty_typed_stats 30 0 (init_program (24, 80)) (by decide)⟩

/-- Claim C7, counterexample: the claim reads the debug draw as binding the
phrase string "Text"; in fact restart in debug mode binds the whole Quote
object that Quotes.random returned, not the str "Text". -/
theorem random_not_text_string :
    (restart true [] 0 (init_program (24, 80))).selected_quote ≠
      PyVal.str "Text".data := by
  decide

/-- Claim C7, amended: Quotes.random returns one quote record whose text
field is the round's target text body; with the debug toggle set every call
returns the fixed record Quote("Author", "Title", "Text", 1), whose text
body is deterministically "Text"; without the toggle the draw (at an
in-range random index) is a member of the corpus. -/
theorem random_debug_fixed_quote (corpus : List Quote) (choice : ℕ) :
    Quotes.random true corpus choice = debug_quote ∧
    debug_quote.text = "Text".data ∧
    (choice < corpus.length → Quotes.random false corpus choice ∈ corpus) := by
  refine ⟨rfl, rfl, fun hc => ?_⟩
  simp only [Quotes.random, Bool.false_eq_true, if_false]
  rw [List.getD_eq_getElem _ _ hc]
  exact List.getElem_mem hc

theorem random_debug_fixed_quote_witness :
    0 < [debug_quote].length ∧ Quotes.random false [debug_quote] 0 ∈ [debug_quote] :=
  ⟨by decide, (random_debug_fixed_quote [debug_quote] 0).2.2 (by decide)⟩

/-- The state reached in debug mode when the user has typed exactly the
text body of the drawn quote: restart drew the fixed debug quote (text
"Text") and the typed buffer holds "Text". -/
def c2_state : ProgramState :=
  { restart true [] 0 (init_program (24, 80)) with typed := "Text".data }

/-- Claim C2 (code bug): with the debug phrase whose text body is "Text"
and "Text" fully typed, check_win changes nothing and the timer stays
alive: the code compares the typed str to the Quote object itself (never
equal in Python), so no win is ever detected even when the typed buffer
matches the phrase text character-for-character. -/
theorem check_win_never_stops_on_equal_text :
    c2_state.selected_quote = PyVal.quoteObj debug_quote ∧
    debug_quote.text = c2_state.typed ∧
    check_win c2_state = c2_state ∧
    (check_win c2_state).timer = some { alive := true, elapsed := 0 } := by
  refine ⟨rfl, rfl, ?_, ?_⟩ <;> decide

theorem read_input_printable (c : Int) (scr : ℕ × ℕ) (st : ProgramState)
    (h1 : 32 ≤ c) (h2 : c ≤ 126) :
    (read_input c scr st).typed = st.typed ++ [Char.ofNat c.toNat] := by
  unfold read_input KEY_BACKSPACE KEY_RESIZE
  split_ifs with hA hB hC
  · exact absurd hA (by omega)
  · exact absurd hB (by omega)
  · rfl
  · exact absurd ⟨h1, h2⟩ hC

theorem read_input_backspace (scr : ℕ × ℕ) (st : ProgramState) :
    (read_input KEY_BACKSPACE scr st).typed = st.typed.dropLast := by
  simp [read_input, update_stats]

/-- Claim C5: a printable code (32 through 126) is appended to the typed
buffer; a code that is neither backspace, nor resize, nor printable leaves
both the typed buffer and the stored screen size unchanged; and in every
case the stats cache is recomputed afterwards from the resulting typed
buffer while the cached time snapshot is untouched. -/
theorem read_input_spec (c : Int) (scr : ℕ × ℕ) (s : ProgramState) :
    (32 ≤ c → c ≤ 126 →
       (read_input c scr s).typed = s.typed ++ [Char.ofNat c.toNat] ∧
       (read_input c scr s).size = s.size) ∧
    (c ≠ KEY_BACKSPACE → c ≠ KEY_RESIZE → ¬(32 ≤ c ∧ c ≤ 126) →
       (read_input c scr s).typed = s.typed ∧
       (read_input c scr s).size = s.size) ∧
    (read_input c scr s).stats =
      (word_count (read_input c scr s).typed,
       ((read_input c scr s).typed).length) ∧
    (read_input c scr s).time = s.time := by
  refine ⟨?_, ?_, ?_, ?_⟩
  · intro h1 h2
    have hb : ¬ c = KEY_BACKSPACE := by unfold KEY_BACKSPACE; omega
    have hr : ¬ c = KEY_RESIZE := by unfold KEY_RESIZE; omega
    refine ⟨read_input_printable c scr s h1 h2, ?_⟩
    simp [read_input, update_stats, hb, hr, h1, h2]
  · intro hb hr hp
    simp [read_input, update_stats, hb, hr, hp]
  · simp only [read_input]
    split_ifs <;> simp [update_stats]
  · simp only [read_input]
    split_ifs <;> simp [update_stats]

theorem read_input_spec_witness :
    ((32 : Int) ≤ 97 ∧ (97 : Int) ≤ 126) ∧
    (read_input 97 (24, 80) (init_program (24, 80))).typed =
      (init_program (24, 80)).typed ++ [Char.ofNat (97 : Int).toNat] ∧
    ((7 : Int) ≠ KEY_BACKSPACE ∧ (7 : Int) ≠ KEY_RESIZE ∧
      ¬(32 ≤ (7 : Int) ∧ (7 : Int) ≤ 126)) ∧
    (read_input 7 (24, 80) (init_program (24, 80))).typed =
      (init_program (24, 80)).typed ∧
    (read_input 7 (24, 80) (init_program (24, 80))).size =
      (init_program (24, 80)).size := by
  refine ⟨by decide, ?_, by decide, ?_, ?_⟩
  · exact ((read_input_spec 97 (24, 80) (init_program (24, 80))).1
      (by decide) (by decide)).1
  · exact ((read_input_spec 7 (24, 80) (init_program (24, 80))).2.1
      (by decide) (by decide) (by decide)).1
  · exact ((read_input_spec 7 (24, 80) (init_program (24, 80))).2.1
      (by decide) (by decide) (by decide)).2

/-- Claim C6: backspace removes exactly the last typed character when the
buffer is non-empty and is a no-op on the empty buffer; any number of
backspace events on an empty buffer leaves it at length 0; and the typed
buffer's length (a natural number) can never go negative under any event
sequence. -/
theorem erase_spec (scr : ℕ × ℕ) (s : ProgramState) (n : ℕ) :
    (s.typed ≠ [] →
       (read_input KEY_BACKSPACE scr s).typed = s.typed.dropLast ∧
       ((read_input KEY_BACKSPACE scr s).typed).length + 1 = s.typed.length) ∧
    (s.typed = [] → (read_input KEY_BACKSPACE scr s).typed = []) ∧
    (s.typed = [] →
       ((fun st => read_input KEY_BACKSPACE scr st)^[n] s).typed = []) ∧
    (∀ cs : List Int,
       0 ≤ ((cs.foldl (fun st c => read_input c scr st) s).typed).length) := by
  refine ⟨?_, ?_, ?_, fun cs => Nat.zero_le _⟩
  · intro hne
    refine ⟨read_input_backspace scr s, ?_⟩
    rw [read_input_backspace, List.length_dropLast]
    exact Nat.succ_pred_eq_of_pos (List.length_pos.mpr hne)
  · intro he
    rw [read_input_backspace, he]
    rfl
  · intro he
    induction n with
    | zero => simpa using he
    | succ n ihn =>
        rw [Function.iterate_succ_apply', read_input_backspace, ihn]
        rfl

theorem erase_spec_witness :
    ("ab".data ≠ ([] : List Char)) ∧
    (read_input KEY_BACKSPACE (24, 80)
        { init_program (24, 80) with typed := "ab".data }).typed = "a".data ∧
    ((init_program (24, 80)).typed = []) ∧
    ((fun st => read_input KEY_BACKSPACE (24, 80) st)^[3]
        (init_program (24, 80))).typed = [] := by
  refine ⟨by decide, ?_, rfl, ?_⟩
  · exact ((erase_spec (24, 80)
      { init_program (24, 80) with typed := "ab".data } 0).1
        (by decide)).1.trans (by decide)
  · exact (erase_spec (24, 80) (init_program (24, 80)) 3).2.2.1 rfl

theorem stop_timer_frame (s : ProgramState) :
    (stop_timer s).running = s.running ∧ (stop_timer s).typed = s.typed ∧
    (stop_timer s).selected_quote = s.selected_quote ∧
    (stop_timer s).stats = s.stats ∧ (stop_timer s).time = s.time ∧
    (stop_timer s).size = s.size ∧ (stop_timer s).cur_pos = s.cur_pos := by
  rcases ht : s.timer with _ | t <;> simp [stop_timer, ht]

/-- Claim C10: check_win leaves running, the typed buffer, the phrase, the
stats and time caches, the screen size and the cursor position untouched;
on a win it only stops the timer, otherwise it is the identity; so the main
loop guard still sees the old running flag and a printable key arriving
after a win still appends to the typed buffer. -/
theorem check_win_frame (s : ProgramState) :
    (check_win s).running = s.running ∧
    (check_win s).typed = s.typed ∧
    (check_win s).selected_quote = s.selected_quote ∧
    (check_win s).stats = s.stats ∧
    (check_win s).time = s.time ∧
    (check_win s).size = s.size ∧
    (check_win s).cur_pos = s.cur_pos ∧
    (pyEq s.selected_quote (PyVal.str s.typed) = true →
       check_win s = stop_timer s) ∧
    (pyEq s.selected_quote (PyVal.str s.typed) = false → check_win s = s) ∧
    (∀ c scr, 32 ≤ c → c ≤ 126 →
       (read_input c scr (check_win s)).typed =
         s.typed ++ [Char.ofNat c.toNat]) := by
  have hst := stop_timer_frame s
  by_cases hw : pyEq s.selected_quote (PyVal.str s.typed) = true
  · have hcw : check_win s = stop_timer s := by simp [check_win, hw]
    rw [hcw]
    refine ⟨hst.1, hst.2.1, hst.2.2.1, hst.2.2.2.1, hst.2.2.2.2.1,
      hst.2.2.2.2.2.1, hst.2.2.2.2.2.2, fun _ => rfl,
      fun hf => absurd hw (by simp [hf]), ?_⟩
    intro c scr h1 h2
    rw [read_input_printable c scr _ h1 h2, hst.2.1]
  · have hcw : check_win s = s := by simp [check_win, hw]
    rw [hcw]
    refine ⟨rfl, rfl, rfl, rfl, rfl, rfl, rfl,
      fun hf => absurd hf hw, fun _ => rfl, ?_⟩
    intro c scr h1 h2
    exact read_input_printable c scr s h1 h2

theorem check_win_frame_witness :
    pyEq (init_program (24, 80)).selected_quote
        (PyVal.str (init_program (24, 80)).typed) = false ∧
    check_win (init_program (24, 80)) = init_program (24, 80) ∧
    (read_input 97 (24, 80) (check_win (init_program (24, 80)))).typed =
      (init_program (24, 80)).typed ++ [Char.ofNat (97 : Int).toNat] := by
  refine ⟨by decide, ?_, ?_⟩
  · exact (check_win_frame (init_program (24, 80))).2.2.2.2.2.2.2.2.1
      (by decide)
  · exact (check_win_frame (init_program (24, 80))).2.2.2.2.2.2.2.2.2
      97 (24, 80) (by decide) (by decide)

/-- Claim C4: restart sets running, empties the typed buffer, binds the
freshly drawn quote and starts a fresh timer whose elapsed count is zero;
the drawn quote's text body is non-empty (the corpus texts are modelled as
non-empty, and the debug text is "Text"); and no other operation of the
program replaces the stored quote. -/
theorem restart_spec (debug : Bool) (corpus : List Quote) (choice : ℕ)
    (s : ProgramState) (hwf : corpusWF corpus) (hc : choice < corpus.length) :
    (restart debug corpus choice s).running = true ∧
    (restart debug corpus choice s).typed = [] ∧
    (restart debug corpus choice s).selected_quote =
      PyVal.quoteObj (Quotes.random debug corpus choice) ∧
    (restart debug corpus choice s).timer =
      some { alive := true, elapsed := 0 } ∧
    (Quotes.random debug corpus choice).text ≠ [] ∧
    (∀ c scr st, (read_input c scr st).selected_quote = st.selected_quote) ∧
    (∀ st, (check_win st).selected_quote = st.selected_quote) ∧
    (∀ st, (update_stats st).selected_quote = st.selected_quote) ∧
    (∀ st, (timer_callback st).selected_quote = st.selected_quote) ∧
    (∀ scr st, (update_size scr st).selected_quote = st.selected_quote) ∧
    (∀ st, (stop st).selected_quote = st.selected_quote) := by
  refine ⟨rfl, rfl, rfl, rfl, ?_, ?_, ?_, fun st => rfl, ?_, fun scr st => rfl, ?_⟩
  · cases debug with
    | false =>
        simp only [Quotes.random, Bool.false_eq_true, if_false]
        rw [List.getD_eq_getElem _ _ hc]
        exact hwf _ (List.getElem_mem hc)
    | true =>
        simp only [Quotes.random, if_true]
        decide
  · intro c scr st
    simp only [read_input, update_stats]
    split_ifs <;> rfl
  · intro st
    by_cases hw : pyEq st.selected_quote (PyVal.str st.typed) = true <;>
      simp [check_win, hw, (stop_timer_frame st).2.2.1]
  · intro st
    rcases ht : st.timer with _ | t <;> simp [timer_callback, ht]
  · intro st
    exact (stop_timer_frame { st with running := false }).2.2.1

theorem restart_spec_witness :
    corpusWF [debug_quote] ∧ 0 < [debug_quote].length ∧
    (restart true [debug_quote] 0 (init_program (24, 80))).typed = [] ∧
    (Quotes.random true [debug_quote] 0).text ≠ [] := by
  have hwf : corpusWF [debug_quote] := by
    intro q hq
    rw [List.mem_singleton.mp hq]
    decide
  refine ⟨hwf, by decide, ?_, ?_⟩
  · exact (restart_spec true [debug_quote] 0 (init_program (24, 80))
      hwf (by decide)).2.1
  · exact (restart_spec true [debug_quote] 0 (init_program (24, 80))
      hwf (by decide)).2.2.2.2.1

end TypeTest
